import Mathlib

/-!
Verification of the streaming-analyzer contract of the libsonare homepage
repository: a shallow embedding of the JS/TS pattern matcher
(`src/composables/useStreamAnalyzer.ts`), the composable's history buffers
and estimate update, and the WASM binding layer (`src/wasm/index.js`),
together with theorems settling the specified properties.

JS numbers are modelled as `ℚ` (all arithmetic in the modelled code is exact
on the values that occur), integer-valued fields as `Int`/`Nat`,
`Float32Array`s as `List ℚ`, and JS `%` on integers as `Int.tmod`
(truncated remainder, the JS semantics).
-/

namespace Sonare

/-! ## Pattern matcher (useStreamAnalyzer.ts) -/

/-- `NOTE_NAMES` from `useStreamAnalyzer.ts`. -/
def NOTE_NAMES : List String :=
  ["C", "C#", "D", "D#", "E", ("F" : String), "F#", "G", "G#", "A", "A#", "B"]

/-- `CHORD_QUALITY_NAMES`: Major, Minor, Diminished, Augmented, Dominant7,
Major7, Minor7, Sus2, Sus4. -/
def CHORD_QUALITY_NAMES : List String :=
  ["", "m", "dim", "aug", "7", "M7", "m7", "sus2", "sus4"]

/-- `keyToName`: note name for a key index, with `m` suffix when minor.
Array indexing `NOTE_NAMES[keyIndex % 12]` is modelled with `Int.tmod`
and a default for out-of-range indices. -/
def keyToName (keyIndex : Int) (isMinor : Bool) : String :=
  let note := NOTE_NAMES.getD (keyIndex.tmod 12).toNat "undefined"
  if isMinor then note ++ "m" else note

/-- `chordToName`: chord display name from root and quality. -/
def chordToName (root : Int) (quality : Nat) : String :=
  if root < 0 ∨ 11 < root then "-"
  else
    let note := NOTE_NAMES.getD root.toNat "undefined"
    let suffix := CHORD_QUALITY_NAMES.getD quality ""
    note ++ suffix

/-- `DEGREE_NAMES`: roman numerals for the 12 scale degrees. -/
def DEGREE_NAMES : List String :=
  ["I", "bII", "II", "bIII", "III", "IV", "bV", "V", "bVI", "VI", "bVII", "VII"]

/-- `ProgressionDef`: a named 4-bar pattern, steps as (degree, quality). -/
structure ProgressionDef where
  key : String
  pattern : List (Int × Nat)
  deriving DecidableEq, Repr

/-- `PROGRESSION_PATTERNS`: the fixed pattern library, in priority order. -/
def PROGRESSION_PATTERNS : List ProgressionDef :=
  [ ⟨"royalRoad", [(0, 0), (7, 0), (9, 1), (5, 0)]⟩,
    ⟨"komuro",    [(9, 1), (5, 0), (7, 0), (0, 0)]⟩,
    ⟨"canon",     [(0, 0), (7, 0), (9, 1), (4, 1)]⟩,
    ⟨"popPunk",   [(0, 0), (7, 0), (5, 0), (9, 1)]⟩,
    ⟨"fifties",   [(0, 0), (9, 1), (5, 0), (7, 0)]⟩,
    ⟨"sad",       [(9, 1), (5, 0), (0, 0), (7, 0)]⟩,
    ⟨"blues",     [(0, 0), (5, 0), (0, 0), (7, 0)]⟩ ]

/-- `chordToDegree`: scale degree of a chord root relative to the key root,
`(chordRoot - keyRoot + 12) % 12` with JS `%` (truncated remainder). -/
def chordToDegree (chordRoot keyRoot : Int) : Int :=
  (chordRoot - keyRoot + 12).tmod 12

/-- A bar chord as consumed by the pattern detector: root and quality. -/
structure BarChordRQ where
  root : Int
  quality : Nat
  deriving DecidableEq, Repr

/-- The detector's result record (`ChordProgressionPattern`). -/
structure ChordProgressionPattern where
  key : String
  degrees : String
  confidence : ℚ
  deriving DecidableEq, Repr

/-- The per-step contribution of the inner scoring loop of
`detectProgressionPattern`: 1 when the degree matches and the quality
matches (exactly, or both qualities ≤ 1, the major/minor flexibility),
0.5 when the degree matches but the quality does not, 0 otherwise. -/
def stepScore (expected actual : Int × Nat) : ℚ :=
  if actual.1 = expected.1 then
    if actual.2 = expected.2 ∨ (expected.2 ≤ 1 ∧ actual.2 ≤ 1) then 1
    else 1/2
  else 0

/-- `matches` accumulated over one slide window: the sum of per-step
contributions of pattern step `i` against `degrees[start + i]`. -/
def windowScore (pat : List (Int × Nat)) (degs : List (Int × Nat)) (start : Nat) : ℚ :=
  (((degs.drop start).zip pat).map (fun p => stepScore p.2 p.1)).sum

/-- The slide offsets tried for one pattern: `start` from 0 while
`start ≤ degrees.length - patternLen` (no iterations when the window is
shorter than the pattern). -/
def slideStarts (degLen patLen : Nat) : List Nat :=
  if degLen < patLen then [] else List.range (degLen - patLen + 1)

/-- All (pattern, confidence) candidates in the iteration order of
`detectProgressionPattern`: patterns in priority order, slide offsets
ascending; confidence is `matches / patternLen`. -/
def candidates (degs : List (Int × Nat)) : List (ProgressionDef × ℚ) :=
  PROGRESSION_PATTERNS.flatMap (fun p =>
    (slideStarts degs.length p.pattern.length).map
      (fun s => (p, windowScore p.pattern degs s / (p.pattern.length : ℚ))))

/-- `!bestMatch || confidence > bestMatch.confidence`. -/
def beatsBest (best : Option (ProgressionDef × ℚ)) (c : ℚ) : Bool :=
  match best with
  | none => true
  | some b => decide (b.2 < c)

/-- The `bestMatch` update: replace when `confidence >= 0.5` and either no
best yet or strictly greater than the current best. -/
def updateBest (best : Option (ProgressionDef × ℚ)) (cand : ProgressionDef × ℚ) :
    Option (ProgressionDef × ℚ) :=
  if 1/2 ≤ cand.2 ∧ beatsBest best cand.2 then some cand else best

/-- `String.prototype.toLowerCase` restricted to the ASCII degree names:
per-character lowering. -/
def toLowerCaseStr (s : String) : String := ⟨s.data.map Char.toLower⟩

/-- The degree string rendered for a matched pattern
(e.g. `"I-V-vim-IV"`). -/
def degreeString (pat : List (Int × Nat)) : String :=
  String.intercalate "-"
    (pat.map (fun dq =>
      let base := DEGREE_NAMES.getD dq.1.toNat "undefined"
      if dq.2 = 1 then toLowerCaseStr base ++ "m" else base))

/-- `barChords.slice(-8)`: the most recent (up to) 8 bar chords. -/
def recent8 (barChords : List BarChordRQ) : List BarChordRQ :=
  barChords.drop (barChords.length - 8)

/-- The degree/quality sequence the detector scores against: the recent
bar chords converted to scale degrees relative to the key root. -/
def degreesOf (barChords : List BarChordRQ) (keyRoot : Int) : List (Int × Nat) :=
  (recent8 barChords).map (fun bc => (chordToDegree bc.root keyRoot, bc.quality))

/-- `detectProgressionPattern` from `useStreamAnalyzer.ts`: null when fewer
than 4 bar chords; otherwise slide every pattern over the recent degree
sequence, keep the best thresholded candidate, and render it. -/
def detectProgressionPattern (barChords : List BarChordRQ) (keyRoot : Int) :
    Option ChordProgressionPattern :=
  if barChords.length < 4 then none
  else
    ((candidates (degreesOf barChords keyRoot)).foldl updateBest none).map
      (fun bm => ⟨bm.1.key, degreeString bm.1.pattern, bm.2⟩)

/-- The per-step scoring rule exactly as the original claim words it:
1 for an exact degree+quality match, 0.5 for a degree match with a quality
mismatch, 0 otherwise. Stated only to compare against the source's
`stepScore`. -/
def claimStepScore (expected actual : Int × Nat) : ℚ :=
  if actual.1 = expected.1 then (if actual.2 = expected.2 then 1 else 1/2) else 0

/-- The per-step scoring rule as the amended claim words it: an exact
degree+quality match scores 1; a degree match where both the expected and
the actual quality are major or minor also scores 1 (major/minor are
interchangeable); a degree match with any other quality mismatch scores
0.5; no degree match scores 0. -/
def amendedStepScore (expected actual : Int × Nat) : ℚ :=
  if actual.1 = expected.1 then
    if actual.2 = expected.2 then 1
    else if expected.2 ≤ 1 ∧ actual.2 ≤ 1 then 1
    else 1/2
  else 0

/-! ## Composable history buffers (useStreamAnalyzer.ts) -/

/-- The SoA frame batch returned by `readFrames`, as consumed by
`accumulateFrames`: per-feature flat arrays plus the frame count. -/
structure FrameBuffer where
  nFrames : Nat
  chroma : List ℚ
  rmsEnergy : List ℚ
  mel : List ℚ
  timestamps : List ℚ
  spectralCentroid : List ℚ
  spectralFlatness : List ℚ
  onsetStrength : List ℚ
  deriving DecidableEq, Repr

/-- The seven per-feature history arrays of the composable, each a list of
pushed chunks, oldest first. -/
structure Histories where
  chromaHistory : List (List ℚ)
  rmsHistory : List (List ℚ)
  melHistory : List (List ℚ)
  timestampHistory : List (List ℚ)
  spectralCentroidHistory : List (List ℚ)
  spectralFlatnessHistory : List (List ℚ)
  onsetStrengthHistory : List (List ℚ)
  deriving DecidableEq, Repr

/-- `maxChunks`: the history cap (about 30 seconds at 86 fps). -/
def maxChunks : Nat := 300

/-- One round of `.shift()` on all seven arrays: drop the oldest chunk of
each. -/
def shiftAll (s : Histories) : Histories :=
  ⟨s.chromaHistory.tail, s.rmsHistory.tail, s.melHistory.tail,
   s.timestampHistory.tail, s.spectralCentroidHistory.tail,
   s.spectralFlatnessHistory.tail, s.onsetStrengthHistory.tail⟩

/-- The `while (chromaHistory.length > maxChunks)` eviction loop of
`accumulateFrames`. -/
def evictLoop (s : Histories) : Histories :=
  if _h : maxChunks < s.chromaHistory.length then evictLoop (shiftAll s) else s
termination_by s.chromaHistory.length
decreasing_by
  simp only [shiftAll, List.length_tail]
  omega

/-- `accumulateFrames`: early-return on an empty batch, push one chunk per
feature, then evict oldest chunks while over the cap. -/
def accumulateFrames (s : Histories) (frames : FrameBuffer) : Histories :=
  if frames.nFrames = 0 then s
  else
    evictLoop
      ⟨s.chromaHistory ++ [frames.chroma], s.rmsHistory ++ [frames.rmsEnergy],
       s.melHistory ++ [frames.mel], s.timestampHistory ++ [frames.timestamps],
       s.spectralCentroidHistory ++ [frames.spectralCentroid],
       s.spectralFlatnessHistory ++ [frames.spectralFlatness],
       s.onsetStrengthHistory ++ [frames.onsetStrength]⟩

/-- The effect of the composable's `reset` on the history arrays: all
seven are cleared (`length = 0`). -/
def resetHistories : Histories := ⟨[], [], [], [], [], [], []⟩

/-- The history invariant: all seven arrays have the same length, which
never exceeds the cap. -/
def historiesInv (s : Histories) : Prop :=
  s.chromaHistory.length = s.rmsHistory.length ∧
  s.chromaHistory.length = s.melHistory.length ∧
  s.chromaHistory.length = s.timestampHistory.length ∧
  s.chromaHistory.length = s.spectralCentroidHistory.length ∧
  s.chromaHistory.length = s.spectralFlatnessHistory.length ∧
  s.chromaHistory.length = s.onsetStrengthHistory.length ∧
  s.chromaHistory.length ≤ maxChunks

/-! ## Estimate update (useStreamAnalyzer.ts) -/

/-- A bar chord as delivered by the binding layer's `stats()`. -/
structure BarChord where
  barIndex : Int
  root : Int
  quality : Nat
  startTime : ℚ
  confidence : ℚ
  deriving DecidableEq, Repr

/-- The fields of the native `ProgressiveEstimate` read by the
composable's `updateEstimate`. -/
structure ProgressiveEstimate where
  bpm : ℚ
  bpmConfidence : ℚ
  key : Int
  keyMinor : Bool
  keyConfidence : ℚ
  chordRoot : Int
  chordQuality : Nat
  chordConfidence : ℚ
  barChordProgression : List BarChord
  votedPattern : List BarChord
  detectedPatternName : String
  detectedPatternScore : ℚ
  currentBar : Int
  barDuration : ℚ
  accumulatedSeconds : ℚ
  updated : Bool
  deriving DecidableEq, Repr

/-- `BarChordInfo`: a bar chord rendered for display. -/
structure BarChordInfo where
  barIndex : Int
  chord : String
  startTime : ℚ
  confidence : ℚ
  deriving DecidableEq, Repr

/-- The published `StreamEstimate` (the composable's `estimate.value`). -/
structure StreamEstimate where
  bpm : ℚ
  bpmConfidence : ℚ
  key : String
  keyConfidence : ℚ
  chord : String
  chordConfidence : ℚ
  barChordProgression : List BarChordInfo
  votedPattern : List String
  detectedPatternName : String
  detectedPatternScore : ℚ
  progressionPattern : Option ChordProgressionPattern
  currentBar : Int
  barDuration : ℚ
  accumulatedSeconds : ℚ
  deriving DecidableEq, Repr

/-- `barChordToInfo`: render one bar chord. -/
def barChordToInfo (bc : BarChord) : BarChordInfo :=
  ⟨bc.barIndex, chordToName bc.root bc.quality, bc.startTime, bc.confidence⟩

/-- `Math.round`: round half toward positive infinity. -/
def jsRound (x : ℚ) : Int := ⌊x + 1/2⌋

/-- The initial / reset value of the published estimate. -/
def initialEstimate : StreamEstimate :=
  { bpm := 0, bpmConfidence := 0, key := "-", keyConfidence := 0, chord := "-",
    chordConfidence := 0, barChordProgression := [], votedPattern := [],
    detectedPatternName := "", detectedPatternScore := 0, progressionPattern := none,
    currentBar := -1, barDuration := 0, accumulatedSeconds := 0 }

/-- `updateEstimate`: early-return when the progressive estimate is not
flagged updated; otherwise rebuild the published estimate from it,
running the JS fallback pattern detector on the bar-chord progression. -/
def updateEstimate (p : ProgressiveEstimate) (e : StreamEstimate) : StreamEstimate :=
  if p.updated = false then e
  else
    { bpm := (jsRound (p.bpm * 10) : ℚ) / 10
      bpmConfidence := p.bpmConfidence
      key := if 3/10 < p.keyConfidence then keyToName p.key p.keyMinor else "-"
      keyConfidence := p.keyConfidence
      chord :=
        if 3/10 < p.chordConfidence then chordToName p.chordRoot p.chordQuality
        else "-"
      chordConfidence := p.chordConfidence
      barChordProgression := p.barChordProgression.map barChordToInfo
      votedPattern := p.votedPattern.map (fun bc => chordToName bc.root bc.quality)
      detectedPatternName := p.detectedPatternName
      detectedPatternScore := p.detectedPatternScore
      progressionPattern :=
        detectProgressionPattern
          (p.barChordProgression.map (fun bc => ⟨bc.root, bc.quality⟩)) p.key
      currentBar := p.currentBar
      barDuration := p.barDuration
      accumulatedSeconds := p.accumulatedSeconds }

/-! ## WASM binding layer (wasm/index.js) -/

/-- A detected key as returned by `detectKey` and inside analysis
results. -/
structure Key where
  root : Int
  mode : Int
  confidence : ℚ
  name : String
  shortName : String
  deriving DecidableEq, Repr

/-- One chord segment of a full analysis result. -/
structure ChordSegment where
  root : Int
  quality : Nat
  start : ℚ
  «end» : ℚ
  confidence : ℚ
  name : String
  deriving DecidableEq, Repr

/-- One structural section of a full analysis result. -/
structure SectionSegment where
  type : Int
  start : ℚ
  «end» : ℚ
  energyLevel : ℚ
  confidence : ℚ
  name : String
  deriving DecidableEq, Repr

/-- The full analysis result of `analyze`; opaque numeric summaries
(timbre, dynamics, rhythm, form) are passed through unchanged. -/
structure AnalysisResult where
  bpm : ℚ
  bpmConfidence : ℚ
  key : Key
  timeSignature : Int
  beats : List ℚ
  chords : List ChordSegment
  sections : List SectionSegment
  timbre : ℚ
  dynamics : ℚ
  rhythm : ℚ
  form : ℚ
  deriving DecidableEq, Repr

/-- `convertAnalysisResult`: the field-by-field copy of a raw WASM analysis
result into the typed result. -/
def convertAnalysisResult (wasm : AnalysisResult) : AnalysisResult :=
  { bpm := wasm.bpm
    bpmConfidence := wasm.bpmConfidence
    key := ⟨wasm.key.root, wasm.key.mode, wasm.key.confidence, wasm.key.name,
            wasm.key.shortName⟩
    timeSignature := wasm.timeSignature
    beats := wasm.beats
    chords := wasm.chords.map
      (fun c => ⟨c.root, c.quality, c.start, c.«end», c.confidence, c.name⟩)
    sections := wasm.sections.map
      (fun s => ⟨s.type, s.start, s.«end», s.energyLevel, s.confidence, s.name⟩)
    timbre := wasm.timbre
    dynamics := wasm.dynamics
    rhythm := wasm.rhythm
    form := wasm.form }

/-- `ProgressCallback`: `(progress, stage) => void`. -/
def ProgressCallback : Type := ℚ → String → Unit

/-- `HpssResult`: harmonic/percussive separation output. -/
structure HpssResult where
  harmonic : List ℚ
  percussive : List ℚ
  sampleRate : ℚ
  deriving DecidableEq, Repr

/-- `StftResult`: magnitude and power spectrograms. -/
structure StftResult where
  nBins : Int
  nFrames : Int
  nFft : Int
  hopLength : Int
  sampleRate : ℚ
  magnitude : List ℚ
  power : List ℚ
  deriving DecidableEq, Repr

/-- `MelSpectrogramResult`. -/
structure MelSpectrogramResult where
  nMels : Int
  nFrames : Int
  sampleRate : ℚ
  hopLength : Int
  power : List ℚ
  db : List ℚ
  deriving DecidableEq, Repr

/-- `MfccResult`. -/
structure MfccResult where
  nMfcc : Int
  nFrames : Int
  coefficients : List ℚ
  deriving DecidableEq, Repr

/-- `ChromaResult`. -/
structure ChromaResult where
  nChroma : Int
  nFrames : Int
  sampleRate : ℚ
  hopLength : Int
  features : List ℚ
  meanEnergy : List ℚ
  deriving DecidableEq, Repr

/-- `PitchResult`: YIN/pYIN pitch-tracking output. -/
structure PitchResult where
  f0 : List ℚ
  voicedProb : List ℚ
  voicedFlag : List Bool
  nFrames : Int
  medianF0 : ℚ
  meanF0 : ℚ
  deriving DecidableEq, Repr

/-- The loaded native module handle: the functions the binding layer
delegates to (an abstract interface; their behaviour lives in the external
WASM binary). -/
structure Module where
  version : String
  detectBpm : List ℚ → ℚ → ℚ
  detectKey : List ℚ → ℚ → Key
  detectOnsets : List ℚ → ℚ → List ℚ
  detectBeats : List ℚ → ℚ → List ℚ
  analyze : List ℚ → ℚ → AnalysisResult
  analyzeWithProgress : List ℚ → ℚ → ProgressCallback → AnalysisResult
  hpss : List ℚ → ℚ → ℚ → ℚ → HpssResult
  harmonic : List ℚ → ℚ → List ℚ
  percussive : List ℚ → ℚ → List ℚ
  timeStretch : List ℚ → ℚ → ℚ → List ℚ
  pitchShift : List ℚ → ℚ → ℚ → List ℚ
  normalize : List ℚ → ℚ → ℚ → List ℚ
  trim : List ℚ → ℚ → ℚ → List ℚ
  stft : List ℚ → ℚ → Int → Int → StftResult
  stftDb : List ℚ → ℚ → Int → Int → StftResult
  melSpectrogram : List ℚ → ℚ → Int → Int → Int → MelSpectrogramResult
  mfcc : List ℚ → ℚ → Int → Int → Int → Int → MfccResult
  chroma : List ℚ → ℚ → Int → Int → ChromaResult
  spectralCentroid : List ℚ → ℚ → Int → Int → List ℚ
  spectralBandwidth : List ℚ → ℚ → Int → Int → List ℚ
  spectralRolloff : List ℚ → ℚ → Int → Int → ℚ → List ℚ
  spectralFlatness : List ℚ → ℚ → Int → Int → List ℚ
  zeroCrossingRate : List ℚ → ℚ → Int → Int → List ℚ
  rmsEnergy : List ℚ → ℚ → Int → Int → List ℚ
  pitchYin : List ℚ → ℚ → Int → Int → ℚ → ℚ → ℚ → PitchResult
  pitchPyin : List ℚ → ℚ → Int → Int → ℚ → ℚ → ℚ → PitchResult
  hzToMel : ℚ → ℚ
  melToHz : ℚ → ℚ
  hzToMidi : ℚ → ℚ
  midiToHz : ℚ → ℚ
  hzToNote : ℚ → String
  noteToHz : String → ℚ
  framesToTime : ℚ → ℚ → Int → ℚ
  timeToFrames : ℚ → ℚ → Int → ℚ
  resample : List ℚ → ℚ → ℚ → List ℚ

/-- The module-level singleton state of the binding layer: `module` and
`initPromise` (the in-flight promise abstracted as an id). -/
structure ModuleState where
  module : Option Module
  initPromise : Option Nat

/-- What one call to `init()` does, from the caller's point of view. -/
inductive InitOutcome where
  | alreadyLoaded
  | joined (p : Nat)
  | started (p : Nat)
  deriving DecidableEq, Repr

/-- `init()`: return immediately when the module is loaded, return the
in-flight promise when one exists, otherwise start a fresh load and
record its promise. Single-threaded JS makes each call atomic up to its
first await, which is after both checks. -/
def init (s : ModuleState) (fresh : Nat) : ModuleState × InitOutcome :=
  match s.module with
  | some _ => (s, .alreadyLoaded)
  | none =>
    match s.initPromise with
    | some p => (s, .joined p)
    | none => ({ s with initPromise := some fresh }, .started fresh)

/-- The in-flight initialization resolving: the async body assigns the
loaded module handle. -/
def resolveInit (s : ModuleState) (m : Module) : ModuleState :=
  { s with module := some m }

/-- `isInitialized()`: `module !== null`. -/
def isInitialized (s : ModuleState) : Bool := s.module.isSome

/-- The error message thrown by every binding function when the module is
not yet initialized. -/
def notInitializedMsg : String := "Module not initialized. Call init() first."

/-- `version()`. -/
def version (s : ModuleState) : Except String String × ModuleState :=
  match s.module with
  | none => (.error notInitializedMsg, s)
  | some m => (.ok m.version, s)

/-- `detectBpm(samples, sampleRate)`. -/
def detectBpm (s : ModuleState) (samples : List ℚ) (sampleRate : ℚ) :
    Except String ℚ × ModuleState :=
  match s.module with
  | none => (.error notInitializedMsg, s)
  | some m => (.ok (m.detectBpm samples sampleRate), s)

/-- `detectKey(samples, sampleRate)`: delegates, then copies the result
fields. -/
def detectKey (s : ModuleState) (samples : List ℚ) (sampleRate : ℚ) :
    Except String Key × ModuleState :=
  match s.module with
  | none => (.error notInitializedMsg, s)
  | some m =>
    let result := m.detectKey samples sampleRate
    (.ok ⟨result.root, result.mode, result.confidence, result.name,
          result.shortName⟩, s)

/-- `detectOnsets(samples, sampleRate)`. -/
def detectOnsets (s : ModuleState) (samples : List ℚ) (sampleRate : ℚ) :
    Except String (List ℚ) × ModuleState :=
  match s.module with
  | none => (.error notInitializedMsg, s)
  | some m => (.ok (m.detectOnsets samples sampleRate), s)

/-- `detectBeats(samples, sampleRate)`. -/
def detectBeats (s : ModuleState) (samples : List ℚ) (sampleRate : ℚ) :
    Except String (List ℚ) × ModuleState :=
  match s.module with
  | none => (.error notInitializedMsg, s)
  | some m => (.ok (m.detectBeats samples sampleRate), s)

/-- `analyze(samples, sampleRate)`: delegates, then converts the result. -/
def analyze (s : ModuleState) (samples : List ℚ) (sampleRate : ℚ) :
    Except String AnalysisResult × ModuleState :=
  match s.module with
  | none => (.error notInitializedMsg, s)
  | some m => (.ok (convertAnalysisResult (m.analyze samples sampleRate)), s)

/-- `analyzeWithProgress(samples, sampleRate, onProgress)`: delegates, then
converts the result. -/
def analyzeWithProgress (s : ModuleState) (samples : List ℚ) (sampleRate : ℚ)
    (onProgress : ProgressCallback) : Except String AnalysisResult × ModuleState :=
  match s.module with
  | none => (.error notInitializedMsg, s)
  | some m =>
    (.ok (convertAnalysisResult (m.analyzeWithProgress samples sampleRate onProgress)), s)

/-- `hpss(samples, sampleRate, kernelHarmonic, kernelPercussive)`. -/
def hpss (s : ModuleState) (samples : List ℚ) (sampleRate kernelHarmonic kernelPercussive : ℚ) :
    Except String HpssResult × ModuleState :=
  match s.module with
  | none => (.error notInitializedMsg, s)
  | some m => (.ok (m.hpss samples sampleRate kernelHarmonic kernelPercussive), s)

/-- `harmonic(samples, sampleRate)`. -/
def harmonic (s : ModuleState) (samples : List ℚ) (sampleRate : ℚ) :
    Except String (List ℚ) × ModuleState :=
  match s.module with
  | none => (.error notInitializedMsg, s)
  | some m => (.ok (m.harmonic samples sampleRate), s)

/-- `percussive(samples, sampleRate)`. -/
def percussive (s : ModuleState) (samples : List ℚ) (sampleRate : ℚ) :
    Except String (List ℚ) × ModuleState :=
  match s.module with
  | none => (.error notInitializedMsg, s)
  | some m => (.ok (m.percussive samples sampleRate), s)

/-- `timeStretch(samples, sampleRate, rate)`. -/
def timeStretch (s : ModuleState) (samples : List ℚ) (sampleRate rate : ℚ) :
    Except String (List ℚ) × ModuleState :=
  match s.module with
  | none => (.error notInitializedMsg, s)
  | some m => (.ok (m.timeStretch samples sampleRate rate), s)

/-- `pitchShift(samples, sampleRate, semitones)`. -/
def pitchShift (s : ModuleState) (samples : List ℚ) (sampleRate semitones : ℚ) :
    Except String (List ℚ) × ModuleState :=
  match s.module with
  | none => (.error notInitializedMsg, s)
  | some m => (.ok (m.pitchShift samples sampleRate semitones), s)

/-- `normalize(samples, sampleRate, targetDb)`. -/
def normalize (s : ModuleState) (samples : List ℚ) (sampleRate targetDb : ℚ) :
    Except String (List ℚ) × ModuleState :=
  match s.module with
  | none => (.error notInitializedMsg, s)
  | some m => (.ok (m.normalize samples sampleRate targetDb), s)

/-- `trim(samples, sampleRate, thresholdDb)`. -/
def trim (s : ModuleState) (samples : List ℚ) (sampleRate thresholdDb : ℚ) :
    Except String (List ℚ) × ModuleState :=
  match s.module with
  | none => (.error notInitializedMsg, s)
  | some m => (.ok (m.trim samples sampleRate thresholdDb), s)

/-- `stft(samples, sampleRate, nFft, hopLength)`. -/
def stft (s : ModuleState) (samples : List ℚ) (sampleRate : ℚ) (nFft hopLength : Int) :
    Except String StftResult × ModuleState :=
  match s.module with
  | none => (.error notInitializedMsg, s)
  | some m => (.ok (m.stft samples sampleRate nFft hopLength), s)

/-- `stftDb(samples, sampleRate, nFft, hopLength)`. -/
def stftDb (s : ModuleState) (samples : List ℚ) (sampleRate : ℚ) (nFft hopLength : Int) :
    Except String StftResult × ModuleState :=
  match s.module with
  | none => (.error notInitializedMsg, s)
  | some m => (.ok (m.stftDb samples sampleRate nFft hopLength), s)

/-- `melSpectrogram(samples, sampleRate, nFft, hopLength, nMels)`. -/
def melSpectrogram (s : ModuleState) (samples : List ℚ) (sampleRate : ℚ)
    (nFft hopLength nMels : Int) : Except String MelSpectrogramResult × ModuleState :=
  match s.module with
  | none => (.error notInitializedMsg, s)
  | some m => (.ok (m.melSpectrogram samples sampleRate nFft hopLength nMels), s)

/-- `mfcc(samples, sampleRate, nFft, hopLength, nMels, nMfcc)`. -/
def mfcc (s : ModuleState) (samples : List ℚ) (sampleRate : ℚ)
    (nFft hopLength nMels nMfcc : Int) : Except String MfccResult × ModuleState :=
  match s.module with
  | none => (.error notInitializedMsg, s)
  | some m => (.ok (m.mfcc samples sampleRate nFft hopLength nMels nMfcc), s)

/-- `chroma(samples, sampleRate, nFft, hopLength)`. -/
def chroma (s : ModuleState) (samples : List ℚ) (sampleRate : ℚ) (nFft hopLength : Int) :
    Except String ChromaResult × ModuleState :=
  match s.module with
  | none => (.error notInitializedMsg, s)
  | some m => (.ok (m.chroma samples sampleRate nFft hopLength), s)

/-- `spectralCentroid(samples, sampleRate, nFft, hopLength)`. -/
def spectralCentroid (s : ModuleState) (samples : List ℚ) (sampleRate : ℚ)
    (nFft hopLength : Int) : Except String (List ℚ) × ModuleState :=
  match s.module with
  | none => (.error notInitializedMsg, s)
  | some m => (.ok (m.spectralCentroid samples sampleRate nFft hopLength), s)

/-- `spectralBandwidth(samples, sampleRate, nFft, hopLength)`. -/
def spectralBandwidth (s : ModuleState) (samples : List ℚ) (sampleRate : ℚ)
    (nFft hopLength : Int) : Except String (List ℚ) × ModuleState :=
  match s.module with
  | none => (.error notInitializedMsg, s)
  | some m => (.ok (m.spectralBandwidth samples sampleRate nFft hopLength), s)

/-- `spectralRolloff(samples, sampleRate, nFft, hopLength, rollPercent)`. -/
def spectralRolloff (s : ModuleState) (samples : List ℚ) (sampleRate : ℚ)
    (nFft hopLength : Int) (rollPercent : ℚ) : Except String (List ℚ) × ModuleState :=
  match s.module with
  | none => (.error notInitializedMsg, s)
  | some m => (.ok (m.spectralRolloff samples sampleRate nFft hopLength rollPercent), s)

/-- `spectralFlatness(samples, sampleRate, nFft, hopLength)`. -/
def spectralFlatness (s : ModuleState) (samples : List ℚ) (sampleRate : ℚ)
    (nFft hopLength : Int) : Except String (List ℚ) × ModuleState :=
  match s.module with
  | none => (.error notInitializedMsg, s)
  | some m => (.ok (m.spectralFlatness samples sampleRate nFft hopLength), s)

/-- `zeroCrossingRate(samples, sampleRate, frameLength, hopLength)`. -/
def zeroCrossingRate (s : ModuleState) (samples : List ℚ) (sampleRate : ℚ)
    (frameLength hopLength : Int) : Except String (List ℚ) × ModuleState :=
  match s.module with
  | none => (.error notInitializedMsg, s)
  | some m => (.ok (m.zeroCrossingRate samples sampleRate frameLength hopLength), s)

/-- `rmsEnergy(samples, sampleRate, frameLength, hopLength)`. -/
def rmsEnergy (s : ModuleState) (samples : List ℚ) (sampleRate : ℚ)
    (frameLength hopLength : Int) : Except String (List ℚ) × ModuleState :=
  match s.module with
  | none => (.error notInitializedMsg, s)
  | some m => (.ok (m.rmsEnergy samples sampleRate frameLength hopLength), s)

/-- `pitchYin(samples, sampleRate, frameLength, hopLength, fmin, fmax,
threshold)`. -/
def pitchYin (s : ModuleState) (samples : List ℚ) (sampleRate : ℚ)
    (frameLength hopLength : Int) (fmin fmax threshold : ℚ) :
    Except String PitchResult × ModuleState :=
  match s.module with
  | none => (.error notInitializedMsg, s)
  | some m =>
    (.ok (m.pitchYin samples sampleRate frameLength hopLength fmin fmax threshold), s)

/-- `pitchPyin(samples, sampleRate, frameLength, hopLength, fmin, fmax,
threshold)`. -/
def pitchPyin (s : ModuleState) (samples : List ℚ) (sampleRate : ℚ)
    (frameLength hopLength : Int) (fmin fmax threshold : ℚ) :
    Except String PitchResult × ModuleState :=
  match s.module with
  | none => (.error notInitializedMsg, s)
  | some m =>
    (.ok (m.pitchPyin samples sampleRate frameLength hopLength fmin fmax threshold), s)

/-- `hzToMel(hz)`. -/
def hzToMel (s : ModuleState) (hz : ℚ) : Except String ℚ × ModuleState :=
  match s.module with
  | none => (.error notInitializedMsg, s)
  | some m => (.ok (m.hzToMel hz), s)

/-- `melToHz(mel)`. -/
def melToHz (s : ModuleState) (mel : ℚ) : Except String ℚ × ModuleState :=
  match s.module with
  | none => (.error notInitializedMsg, s)
  | some m => (.ok (m.melToHz mel), s)

/-- `hzToMidi(hz)`. -/
def hzToMidi (s : ModuleState) (hz : ℚ) : Except String ℚ × ModuleState :=
  match s.module with
  | none => (.error notInitializedMsg, s)
  | some m => (.ok (m.hzToMidi hz), s)

/-- `midiToHz(midi)`. -/
def midiToHz (s : ModuleState) (midi : ℚ) : Except String ℚ × ModuleState :=
  match s.module with
  | none => (.error notInitializedMsg, s)
  | some m => (.ok (m.midiToHz midi), s)

/-- `hzToNote(hz)`. -/
def hzToNote (s : ModuleState) (hz : ℚ) : Except String String × ModuleState :=
  match s.module with
  | none => (.error notInitializedMsg, s)
  | some m => (.ok (m.hzToNote hz), s)

/-- `noteToHz(note)`. -/
def noteToHz (s : ModuleState) (note : String) : Except String ℚ × ModuleState :=
  match s.module with
  | none => (.error notInitializedMsg, s)
  | some m => (.ok (m.noteToHz note), s)

/-- `framesToTime(frames, sr, hopLength)`. -/
def framesToTime (s : ModuleState) (frames sr : ℚ) (hopLength : Int) :
    Except String ℚ × ModuleState :=
  match s.module with
  | none => (.error notInitializedMsg, s)
  | some m => (.ok (m.framesToTime frames sr hopLength), s)

/-- `timeToFrames(time, sr, hopLength)`. -/
def timeToFrames (s : ModuleState) (time sr : ℚ) (hopLength : Int) :
    Except String ℚ × ModuleState :=
  match s.module with
  | none => (.error notInitializedMsg, s)
  | some m => (.ok (m.timeToFrames time sr hopLength), s)

/-- `resample(samples, srcSr, targetSr)`. -/
def resample (s : ModuleState) (samples : List ℚ) (srcSr targetSr : ℚ) :
    Except String (List ℚ) × ModuleState :=
  match s.module with
  | none => (.error notInitializedMsg, s)
  | some m => (.ok (m.resample samples srcSr targetSr), s)

/-- `StreamConfig`: sampleRate required, every other field optional. -/
structure StreamConfig where
  sampleRate : ℚ
  nFft : Option Int
  hopLength : Option Int
  nMels : Option Int
  computeMel : Option Bool
  computeChroma : Option Bool
  computeOnset : Option Bool
  emitEveryNFrames : Option Int
  deriving DecidableEq, Repr

/-- The positional argument tuple the JS wrapper passes to the native
`module.StreamAnalyzer` constructor. -/
structure NativeStreamAnalyzerArgs where
  sampleRate : ℚ
  nFft : Int
  hopLength : Int
  nMels : Int
  computeMel : Bool
  computeChroma : Bool
  computeOnset : Bool
  emitEveryNFrames : Int
  deriving DecidableEq, Repr

/-- The native analyzer object, holding the arguments it was constructed
with (its behaviour lives in the external WASM binary). -/
structure NativeStreamAnalyzer where
  args : NativeStreamAnalyzerArgs
  deriving DecidableEq, Repr

/-- Modelled from the spec: the native (C++/WASM) `StreamAnalyzer`
constructor is not part of this repository; per the spec's error-handling
design, construction fails when sampleRate ≤ 0, hopLength ≤ 0, or
hopLength ≥ nFft, and otherwise yields an analyzer holding the passed
configuration. -/
def nativeStreamAnalyzerNew (args : NativeStreamAnalyzerArgs) :
    Except String NativeStreamAnalyzer :=
  if args.sampleRate ≤ 0 ∨ args.hopLength ≤ 0 ∨ args.nFft ≤ args.hopLength then
    .error "Invalid StreamAnalyzer configuration"
  else .ok ⟨args⟩

/-- The resolution of optional configuration fields performed inside the
JS constructor call: `config.nFft ?? 2048`, `config.hopLength ?? 512`,
`config.nMels ?? 128`, `config.computeMel ?? true`,
`config.computeChroma ?? true`, `config.computeOnset ?? true`,
`config.emitEveryNFrames ?? 1`. -/
def resolveConfig (config : StreamConfig) : NativeStreamAnalyzerArgs :=
  ⟨config.sampleRate, config.nFft.getD 2048, config.hopLength.getD 512,
   config.nMels.getD 128, config.computeMel.getD true,
   config.computeChroma.getD true, config.computeOnset.getD true,
   config.emitEveryNFrames.getD 1⟩

/-- The JS `StreamAnalyzer` wrapper object. -/
structure StreamAnalyzer where
  analyzer : NativeStreamAnalyzer
  deriving DecidableEq, Repr

/-- `new StreamAnalyzer(config)`: throws when the module is not
initialized, otherwise passes the resolved configuration positionally to
the native constructor. -/
def streamAnalyzerNew (s : ModuleState) (config : StreamConfig) :
    Except String StreamAnalyzer × ModuleState :=
  match s.module with
  | none => (.error notInitializedMsg, s)
  | some _ =>
    ((nativeStreamAnalyzerNew (resolveConfig config)).map StreamAnalyzer.mk, s)

/-- A placeholder loaded module used to instantiate theorems at concrete
states. -/
def sampleModule : Module :=
  { version := "0.0.0"
    detectBpm := fun _ _ => 0
    detectKey := fun _ _ => ⟨0, 0, 0, "", ""⟩
    detectOnsets := fun _ _ => []
    detectBeats := fun _ _ => []
    analyze := fun _ _ => ⟨0, 0, ⟨0, 0, 0, "", ""⟩, 4, [], [], [], 0, 0, 0, 0⟩
    analyzeWithProgress :=
      fun _ _ _ => ⟨0, 0, ⟨0, 0, 0, "", ""⟩, 4, [], [], [], 0, 0, 0, 0⟩
    hpss := fun _ sr _ _ => ⟨[], [], sr⟩
    harmonic := fun _ _ => []
    percussive := fun _ _ => []
    timeStretch := fun _ _ _ => []
    pitchShift := fun _ _ _ => []
    normalize := fun _ _ _ => []
    trim := fun _ _ _ => []
    stft := fun _ sr n h => ⟨n / 2 + 1, 0, n, h, sr, [], []⟩
    stftDb := fun _ sr n h => ⟨n / 2 + 1, 0, n, h, sr, [], []⟩
    melSpectrogram := fun _ sr _ h n => ⟨n, 0, sr, h, [], []⟩
    mfcc := fun _ _ _ _ _ n => ⟨n, 0, []⟩
    chroma := fun _ sr _ h => ⟨12, 0, sr, h, [], []⟩
    spectralCentroid := fun _ _ _ _ => []
    spectralBandwidth := fun _ _ _ _ => []
    spectralRolloff := fun _ _ _ _ _ => []
    spectralFlatness := fun _ _ _ _ => []
    zeroCrossingRate := fun _ _ _ _ => []
    rmsEnergy := fun _ _ _ _ => []
    pitchYin := fun _ _ _ _ _ _ _ => ⟨[], [], [], 0, 0, 0⟩
    pitchPyin := fun _ _ _ _ _ _ _ => ⟨[], [], [], 0, 0, 0⟩
    hzToMel := fun _ => 0
    melToHz := fun _ => 0
    hzToMidi := fun _ => 0
    midiToHz := fun _ => 0
    hzToNote := fun _ => "A4"
    noteToHz := fun _ => 440
    framesToTime := fun _ _ _ => 0
    timeToFrames := fun _ _ _ => 0
    resample := fun s _ _ => s }

/-! ### Properties of the best-match fold -/

lemma beatsBest_some_iff {z : ProgressionDef × ℚ} {c : ℚ} :
    beatsBest (some z) c = true ↔ z.2 < c := by
  simp [beatsBest]

lemma updateBest_pos {b : Option (ProgressionDef × ℚ)} {y : ProgressionDef × ℚ}
    (h : 1/2 ≤ y.2 ∧ beatsBest b y.2) : updateBest b y = some y := by
  unfold updateBest
  exact if_pos h

lemma updateBest_neg {b : Option (ProgressionDef × ℚ)} {y : ProgressionDef × ℚ}
    (h : ¬(1/2 ≤ y.2 ∧ beatsBest b y.2)) : updateBest b y = b := by
  unfold updateBest
  exact if_neg h

lemma updateBest_some (b y : ProgressionDef × ℚ) :
    ∃ c, updateBest (some b) y = some c := by
  unfold updateBest
  split
  · exact ⟨y, rfl⟩
  · exact ⟨b, rfl⟩

lemma updateBest_none_lt {y : ProgressionDef × ℚ} (h : updateBest none y = none) :
    y.2 < 1/2 := by
  by_contra hc
  push_neg at hc
  have hbeat : beatsBest none y.2 = true := rfl
  rw [updateBest_pos ⟨hc, hbeat⟩] at h
  cases h

/-- If the fold over the whole candidate list yields no best match, the
accumulator was empty and every candidate scored below the threshold. -/
lemma foldBest_none (l : List (ProgressionDef × ℚ)) (b : Option (ProgressionDef × ℚ))
    (h : l.foldl updateBest b = none) : b = none ∧ ∀ y ∈ l, y.2 < 1/2 := by
  induction l generalizing b with
  | nil => exact ⟨h, by simp⟩
  | cons y l ih =>
    simp only [List.foldl_cons] at h
    obtain ⟨hb', hl⟩ := ih _ h
    have hbnone : b = none := by
      cases b with
      | none => rfl
      | some z =>
        obtain ⟨c, hc⟩ := updateBest_some z y
        rw [hc] at hb'
        cases hb'
    subst hbnone
    refine ⟨rfl, ?_⟩
    intro w hw
    rcases List.mem_cons.mp hw with rfl | h2
    · exact updateBest_none_lt hb'
    · exact hl _ h2

/-- Structure of the best-match fold: starting from an accumulator whose
score (if any) is above the threshold, the result is either the untouched
accumulator dominating the list, or a list element above the threshold
that strictly beats everything before it and dominates everything after
it (the first-found maximum). -/
lemma foldBest_decomp (l : List (ProgressionDef × ℚ)) (b : Option (ProgressionDef × ℚ))
    (hb : ∀ z, b = some z → 1/2 ≤ z.2) (x : ProgressionDef × ℚ)
    (h : l.foldl updateBest b = some x) :
    (b = some x ∧ ∀ y ∈ l, y.2 ≤ x.2) ∨
    (1/2 ≤ x.2 ∧ ∃ l₁ l₂, l = l₁ ++ x :: l₂ ∧
      (∀ y ∈ l₁, y.2 < x.2) ∧ (∀ y ∈ l₂, y.2 ≤ x.2) ∧
      (∀ z, b = some z → z.2 < x.2)) := by
  induction l generalizing b with
  | nil =>
    left
    exact ⟨h, by simp⟩
  | cons y l ih =>
    simp only [List.foldl_cons] at h
    by_cases hcond : 1/2 ≤ y.2 ∧ beatsBest b y.2
    · rw [updateBest_pos hcond] at h
      rcases ih (some y) (fun z hz => by cases hz; exact hcond.1) h with
        ⟨hbx, hall⟩ | ⟨hx2, l₁, l₂, hdec, hlt, hle, hbnd⟩
      · obtain rfl : y = x := by injection hbx
        right
        refine ⟨hcond.1, [], l, rfl, by simp, hall, ?_⟩
        intro z hz
        have h2 := hcond.2
        rw [hz] at h2
        exact beatsBest_some_iff.mp h2
      · right
        refine ⟨hx2, y :: l₁, l₂, by rw [hdec]; rfl, ?_, hle, ?_⟩
        · intro w hw
          rcases List.mem_cons.mp hw with rfl | hw'
          · exact hbnd w rfl
          · exact hlt w hw'
        · intro z hz
          have h2 := hcond.2
          rw [hz] at h2
          exact (beatsBest_some_iff.mp h2).trans (hbnd y rfl)
    · rw [updateBest_neg hcond] at h
      rcases ih b hb h with
        ⟨hbx, hall⟩ | ⟨hx2, l₁, l₂, hdec, hlt, hle, hbnd⟩
      · left
        refine ⟨hbx, ?_⟩
        intro w hw
        rcases List.mem_cons.mp hw with rfl | hw'
        · by_contra hgt
          push_neg at hgt
          have h12 : 1/2 ≤ w.2 := le_trans (hb x hbx) (le_of_lt hgt)
          exact hcond ⟨h12, by rw [hbx]; exact beatsBest_some_iff.mpr hgt⟩
        · exact hall w hw'
      · right
        refine ⟨hx2, y :: l₁, l₂, by rw [hdec]; rfl, ?_, hle, hbnd⟩
        intro w hw
        rcases List.mem_cons.mp hw with rfl | hw'
        · cases hbc : b with
          | none =>
            have hlt12 : ¬(1/2 ≤ w.2) := fun hh => hcond ⟨hh, by rw [hbc]; rfl⟩
            push_neg at hlt12
            linarith
          | some z =>
            by_cases hyz : z.2 < w.2
            · have h12 : ¬(1/2 ≤ w.2) :=
                fun hh => hcond ⟨hh, by rw [hbc]; exact beatsBest_some_iff.mpr hyz⟩
              push_neg at h12
              linarith
            · push_neg at hyz
              have := hbnd z hbc
              linarith
        · exact hlt w hw'

/-- Membership in the candidate list: each candidate is a library pattern
together with a valid slide offset, its confidence being the window score
divided by the pattern length. -/
lemma mem_candidates {degs : List (Int × Nat)} {x : ProgressionDef × ℚ}
    (h : x ∈ candidates degs) :
    x.1 ∈ PROGRESSION_PATTERNS ∧
    ∃ s, s + x.1.pattern.length ≤ degs.length ∧
      x.2 = windowScore x.1.pattern degs s / (x.1.pattern.length : ℚ) := by
  unfold candidates at h
  rcases List.mem_flatMap.mp h with ⟨p, hp, hx⟩
  rcases List.mem_map.mp hx with ⟨s, hs, rfl⟩
  refine ⟨hp, s, ?_, rfl⟩
  show s + p.pattern.length ≤ degs.length
  unfold slideStarts at hs
  split at hs
  · cases hs
  · rename_i hge
    have := List.mem_range.mp hs
    omega

/-! ### Concrete evaluations of the detector -/

/-- The exact royalRoad progression in C is detected with confidence 1. -/
lemma detect_eval_royal :
    detectProgressionPattern [⟨0, 0⟩, ⟨7, 0⟩, ⟨9, 1⟩, ⟨5, 0⟩] 0 =
      some ⟨"royalRoad", "I-V-vim-IV", 1⟩ := by
  norm_num [detectProgressionPattern, degreesOf, recent8, chordToDegree, candidates,
    slideStarts, windowScore, stepScore, updateBest, beatsBest, degreeString,
    PROGRESSION_PATTERNS, DEGREE_NAMES, List.foldl, List.flatMap, List.range,
    Int.tmod]
  decide

/-- The royalRoad progression with VI major in place of VIm is still
detected with confidence 1 (the major/minor flexibility). -/
lemma detect_eval_royalMajorVI :
    detectProgressionPattern [⟨0, 0⟩, ⟨7, 0⟩, ⟨9, 0⟩, ⟨5, 0⟩] 0 =
      some ⟨"royalRoad", "I-V-vim-IV", 1⟩ := by
  norm_num [detectProgressionPattern, degreesOf, recent8, chordToDegree, candidates,
    slideStarts, windowScore, stepScore, updateBest, beatsBest, degreeString,
    PROGRESSION_PATTERNS, DEGREE_NAMES, List.foldl, List.flatMap, List.range,
    Int.tmod]
  decide

/-- The candidate list for the exact royalRoad progression in C contains
the royalRoad pattern with confidence 1. -/
lemma royal_candidate_mem :
    ((⟨"royalRoad", [(0, 0), (7, 0), (9, 1), (5, 0)]⟩ : ProgressionDef), (1 : ℚ)) ∈
      candidates (degreesOf [⟨0, 0⟩, ⟨7, 0⟩, ⟨9, 1⟩, ⟨5, 0⟩] 0) := by
  unfold candidates
  refine List.mem_flatMap.mpr ⟨⟨"royalRoad", [(0, 0), (7, 0), (9, 1), (5, 0)]⟩,
    by norm_num [PROGRESSION_PATTERNS], List.mem_map.mpr ⟨0, ?_, ?_⟩⟩
  · norm_num [slideStarts, degreesOf, recent8, List.mem_range]
  · norm_num [windowScore, stepScore, degreesOf, recent8, chordToDegree, Int.tmod]

/-! ### Claim theorems for the pattern matcher -/

/-- Claim C1 (counterexample): the per-step scoring rule is not the
claimed one. For expected step (degree 9, minor) and actual chord
(degree 9, major) — a degree match with a major/minor quality mismatch —
the code contributes 1, not 0.5; consequently feeding royalRoad with VIm
replaced by VI major still yields confidence 1. -/
theorem stepScore_quality_flexibility_cex :
    stepScore (9, 1) (9, 0) = 1 ∧ claimStepScore (9, 1) (9, 0) = 1/2 ∧
    ((1 : ℚ) ≠ 1/2) ∧
    detectProgressionPattern [⟨0, 0⟩, ⟨7, 0⟩, ⟨9, 0⟩, ⟨5, 0⟩] 0 =
      some ⟨"royalRoad", "I-V-vim-IV", 1⟩ :=
  ⟨by norm_num [stepScore], by norm_num [claimStepScore], by norm_num,
   detect_eval_royalMajorVI⟩

/-- Claim C1 (amended): a step scores 1 on an exact degree+quality match
and also on a degree match where both qualities are major/minor; 0.5 on a
degree match with any other quality mismatch; 0 with no degree match.
Every reported result has confidence equal to a window score (the sum of
per-step contributions) divided by the pattern length, and is only
reported when that confidence is at least 0.5. -/
theorem detect_scoring_amended :
    (∀ e a : Int × Nat, stepScore e a = amendedStepScore e a) ∧
    (∀ (barChords : List BarChordRQ) (keyRoot : Int) r,
      detectProgressionPattern barChords keyRoot = some r →
        1/2 ≤ r.confidence ∧
        ∃ p ∈ PROGRESSION_PATTERNS, r.key = p.key ∧
          ∃ s, s + p.pattern.length ≤ (degreesOf barChords keyRoot).length ∧
            r.confidence = windowScore p.pattern (degreesOf barChords keyRoot) s /
              (p.pattern.length : ℚ)) := by
  constructor
  · intro e a
    unfold stepScore amendedStepScore
    split_ifs <;> first | rfl | tauto
  · intro bcs k r h
    unfold detectProgressionPattern at h
    split at h
    · cases h
    · rcases Option.map_eq_some'.mp h with ⟨bm, hfold, hr⟩
      rcases foldBest_decomp _ none (by intro z hz; cases hz) bm hfold with
        ⟨hbx, _⟩ | ⟨hx2, l₁, l₂, hdec, _, _, _⟩
      · cases hbx
      · have hmem : bm ∈ candidates (degreesOf bcs k) := by
          rw [hdec]
          exact List.mem_append_right _ (List.mem_cons_self _ _)
        obtain ⟨hp, s, hs, hconf⟩ := mem_candidates hmem
        subst hr
        exact ⟨hx2, bm.1, hp, rfl, s, hs, hconf⟩

/-- Claim C1 (witness): the amended theorem evaluated at a concrete step
and at the exact royalRoad progression in C. -/
theorem detect_scoring_amended_witness :
    stepScore (0, 0) (0, 0) = amendedStepScore (0, 0) (0, 0) ∧
    (1/2 ≤ (ChordProgressionPattern.mk "royalRoad" "I-V-vim-IV" 1).confidence ∧
     ∃ p ∈ PROGRESSION_PATTERNS,
       (ChordProgressionPattern.mk "royalRoad" "I-V-vim-IV" 1).key = p.key ∧
       ∃ s, s + p.pattern.length ≤
           (degreesOf [⟨0, 0⟩, ⟨7, 0⟩, ⟨9, 1⟩, ⟨5, 0⟩] 0).length ∧
         (ChordProgressionPattern.mk "royalRoad" "I-V-vim-IV" 1).confidence =
           windowScore p.pattern (degreesOf [⟨0, 0⟩, ⟨7, 0⟩, ⟨9, 1⟩, ⟨5, 0⟩] 0) s /
             (p.pattern.length : ℚ)) :=
  ⟨detect_scoring_amended.1 (0, 0) (0, 0),
   detect_scoring_amended.2 [⟨0, 0⟩, ⟨7, 0⟩, ⟨9, 1⟩, ⟨5, 0⟩] 0 _ detect_eval_royal⟩

/-- Claim C2: for every key root k, four bar chords forming I-V-VIm-IV
relative to k are detected as "royalRoad" with confidence at least 0.99. -/
theorem detect_royalRoad_all_keys :
    ∀ k : Fin 12, ∃ r,
      detectProgressionPattern
        [⟨((k : Int) + 0) % 12, 0⟩, ⟨((k : Int) + 7) % 12, 0⟩,
         ⟨((k : Int) + 9) % 12, 1⟩, ⟨((k : Int) + 5) % 12, 0⟩] (k : Int) = some r ∧
      r.key = "royalRoad" ∧ (99/100 : ℚ) ≤ r.confidence := by
  intro k
  fin_cases k <;>
  · refine ⟨⟨"royalRoad", "I-V-vim-IV", 1⟩, ?_, rfl, by norm_num⟩
    norm_num [detectProgressionPattern, degreesOf, recent8, chordToDegree, candidates,
      slideStarts, windowScore, stepScore, updateBest, beatsBest, degreeString,
      PROGRESSION_PATTERNS, DEGREE_NAMES, List.foldl, List.flatMap, List.range,
      Int.tmod]
    decide

/-- Claim C3: every reported result corresponds to a candidate (pattern,
slide offset) in iteration order — patterns in priority order, offsets
ascending — whose confidence reaches 0.5, strictly exceeds every earlier
candidate and is at least every later candidate (the first-found maximum);
and whenever some candidate reaches 0.5 a match is reported. -/
theorem detect_reports_first_best :
    (∀ (barChords : List BarChordRQ) (keyRoot : Int) r,
      detectProgressionPattern barChords keyRoot = some r →
        ∃ p l₁ l₂,
          candidates (degreesOf barChords keyRoot) = l₁ ++ (p, r.confidence) :: l₂ ∧
          r.key = p.key ∧ r.degrees = degreeString p.pattern ∧
          1/2 ≤ r.confidence ∧
          (∀ y ∈ l₁, y.2 < r.confidence) ∧
          (∀ y ∈ l₂, y.2 ≤ r.confidence)) ∧
    (∀ (barChords : List BarChordRQ) (keyRoot : Int),
      4 ≤ barChords.length →
      (∃ y ∈ candidates (degreesOf barChords keyRoot), 1/2 ≤ y.2) →
      detectProgressionPattern barChords keyRoot ≠ none) := by
  constructor
  · intro bcs k r h
    unfold detectProgressionPattern at h
    split at h
    · cases h
    · rcases Option.map_eq_some'.mp h with ⟨bm, hfold, hr⟩
      rcases foldBest_decomp _ none (by intro z hz; cases hz) bm hfold with
        ⟨hbx, _⟩ | ⟨hx2, l₁, l₂, hdec, hlt, hle, _⟩
      · cases hbx
      · subst hr
        exact ⟨bm.1, l₁, l₂, hdec, rfl, rfl, hx2, hlt, hle⟩
  · intro bcs k h4 hex hnone
    obtain ⟨y, hy, hy2⟩ := hex
    unfold detectProgressionPattern at hnone
    rw [if_neg (by omega)] at hnone
    have hfold := Option.map_eq_none'.mp hnone
    obtain ⟨-, hall⟩ := foldBest_none _ _ hfold
    exact absurd hy2 (not_le.mpr (hall y hy))

/-- Claim C3 (witness): the theorem evaluated at the exact royalRoad
progression in C, whose candidate list contains (royalRoad, 1). -/
theorem detect_reports_first_best_witness :
    (∃ p l₁ l₂,
      candidates (degreesOf [⟨0, 0⟩, ⟨7, 0⟩, ⟨9, 1⟩, ⟨5, 0⟩] 0) =
        l₁ ++ (p, (ChordProgressionPattern.mk "royalRoad" "I-V-vim-IV" 1).confidence) :: l₂ ∧
      (ChordProgressionPattern.mk "royalRoad" "I-V-vim-IV" 1).key = p.key ∧
      (ChordProgressionPattern.mk "royalRoad" "I-V-vim-IV" 1).degrees =
        degreeString p.pattern ∧
      1/2 ≤ (ChordProgressionPattern.mk "royalRoad" "I-V-vim-IV" 1).confidence ∧
      (∀ y ∈ l₁, y.2 < (ChordProgressionPattern.mk "royalRoad" "I-V-vim-IV" 1).confidence) ∧
      (∀ y ∈ l₂, y.2 ≤ (ChordProgressionPattern.mk "royalRoad" "I-V-vim-IV" 1).confidence)) ∧
    detectProgressionPattern [⟨0, 0⟩, ⟨7, 0⟩, ⟨9, 1⟩, ⟨5, 0⟩] 0 ≠ none :=
  ⟨detect_reports_first_best.1 [⟨0, 0⟩, ⟨7, 0⟩, ⟨9, 1⟩, ⟨5, 0⟩] 0 _ detect_eval_royal,
   detect_reports_first_best.2 [⟨0, 0⟩, ⟨7, 0⟩, ⟨9, 1⟩, ⟨5, 0⟩] 0 (by decide)
     ⟨(⟨"royalRoad", [(0, 0), (7, 0), (9, 1), (5, 0)]⟩, 1), royal_candidate_mem,
       by norm_num⟩⟩

/-- Claim C10: the detector returns null for fewer than 4 bar chords, and
its result depends only on the key root and the most recent 8 bar chords. -/
theorem detect_short_null_last8 :
    (∀ (barChords : List BarChordRQ) (keyRoot : Int),
      barChords.length < 4 → detectProgressionPattern barChords keyRoot = none) ∧
    (∀ (b₁ b₂ : List BarChordRQ) (keyRoot : Int),
      recent8 b₁ = recent8 b₂ →
      detectProgressionPattern b₁ keyRoot = detectProgressionPattern b₂ keyRoot) := by
  constructor
  · intro bcs k h
    unfold detectProgressionPattern
    rw [if_pos h]
  · intro b₁ b₂ k h
    have hlen : b₁.length - (b₁.length - 8) = b₂.length - (b₂.length - 8) := by
      have := congrArg List.length h
      simpa [recent8, List.length_drop] using this
    have hiff : b₁.length < 4 ↔ b₂.length < 4 := by omega
    unfold detectProgressionPattern
    by_cases h4 : b₁.length < 4
    · rw [if_pos h4, if_pos (hiff.mp h4)]
    · rw [if_neg h4, if_neg (fun hh => h4 (hiff.mpr hh))]
      unfold degreesOf
      rw [h]

/-- Claim C10 (witness): the theorem evaluated at a 1-chord input and at
two 9-chord inputs agreeing on their last 8 entries. -/
theorem detect_short_null_last8_witness :
    detectProgressionPattern [⟨0, 0⟩] 0 = none ∧
    detectProgressionPattern
      [⟨1, 0⟩, ⟨0, 0⟩, ⟨7, 0⟩, ⟨9, 1⟩, ⟨5, 0⟩, ⟨0, 0⟩, ⟨7, 0⟩, ⟨9, 1⟩, ⟨5, 0⟩] 0 =
    detectProgressionPattern
      [⟨2, 0⟩, ⟨0, 0⟩, ⟨7, 0⟩, ⟨9, 1⟩, ⟨5, 0⟩, ⟨0, 0⟩, ⟨7, 0⟩, ⟨9, 1⟩, ⟨5, 0⟩] 0 :=
  ⟨detect_short_null_last8.1 [⟨0, 0⟩] 0 (by decide),
   detect_short_null_last8.2 _ _ 0 (by decide)⟩

/-! ### Claim theorems for the history buffers -/

lemma evictLoop_le {s : Histories} (h : s.chromaHistory.length ≤ maxChunks) :
    evictLoop s = s := by
  rw [evictLoop]
  rw [dif_neg (by omega)]

lemma evictLoop_gt {s : Histories} (h : maxChunks < s.chromaHistory.length) :
    evictLoop s = evictLoop (shiftAll s) := by
  rw [evictLoop]
  rw [dif_pos h]

lemma tail_append_single {α : Type} (l : List α) (a : α) (h : l ≠ []) :
    (l ++ [a]).tail = l.tail ++ [a] := by
  cases l with
  | nil => exact absurd rfl h
  | cons x xs => rfl

/-- Claim C4: the seven history arrays always have equal length, the
length never exceeds the 300-chunk cap (preserved by `accumulateFrames`,
established by `reset`), and a push that would exceed the cap evicts
exactly the oldest chunk of every array. -/
theorem histories_capped_evict_oldest :
    (∀ (s : Histories) (frames : FrameBuffer),
      historiesInv s → historiesInv (accumulateFrames s frames)) ∧
    historiesInv resetHistories ∧
    (∀ (s : Histories) (frames : FrameBuffer),
      historiesInv s → s.chromaHistory.length = maxChunks → frames.nFrames ≠ 0 →
      accumulateFrames s frames =
        ⟨s.chromaHistory.tail ++ [frames.chroma],
         s.rmsHistory.tail ++ [frames.rmsEnergy],
         s.melHistory.tail ++ [frames.mel],
         s.timestampHistory.tail ++ [frames.timestamps],
         s.spectralCentroidHistory.tail ++ [frames.spectralCentroid],
         s.spectralFlatnessHistory.tail ++ [frames.spectralFlatness],
         s.onsetStrengthHistory.tail ++ [frames.onsetStrength]⟩) := by
  refine ⟨?_, by simp [historiesInv, resetHistories], ?_⟩
  · intro s f hinv
    obtain ⟨h1, h2, h3, h4, h5, h6, h7⟩ := hinv
    unfold accumulateFrames
    by_cases h0 : f.nFrames = 0
    · rw [if_pos h0]
      exact ⟨h1, h2, h3, h4, h5, h6, h7⟩
    · rw [if_neg h0]
      by_cases hc : s.chromaHistory.length + 1 ≤ maxChunks
      · rw [evictLoop_le (by simpa using hc)]
        unfold historiesInv
        simp only [List.length_append, List.length_singleton]
        omega
      · rw [evictLoop_gt (by simp only [List.length_append, List.length_singleton]; omega)]
        rw [evictLoop_le (by
          simp only [shiftAll, List.length_tail, List.length_append,
            List.length_singleton]
          omega)]
        unfold historiesInv shiftAll
        simp only [List.length_tail, List.length_append, List.length_singleton]
        omega
  · intro s f hinv hlen h0
    obtain ⟨h1, h2, h3, h4, h5, h6, h7⟩ := hinv
    unfold accumulateFrames
    rw [if_neg h0]
    rw [evictLoop_gt (by
      simp only [List.length_append, List.length_singleton]
      omega)]
    rw [evictLoop_le (by
      simp only [shiftAll, List.length_tail, List.length_append, List.length_singleton]
      omega)]
    have hne : ∀ (l : List (List ℚ)), l.length = maxChunks → l ≠ [] := by
      intro l hl hnil
      rw [hnil] at hl
      simp [maxChunks] at hl
    unfold shiftAll
    congr 1
    · exact tail_append_single _ _ (hne _ hlen)
    · exact tail_append_single _ _ (hne _ (by omega))
    · exact tail_append_single _ _ (hne _ (by omega))
    · exact tail_append_single _ _ (hne _ (by omega))
    · exact tail_append_single _ _ (hne _ (by omega))
    · exact tail_append_single _ _ (hne _ (by omega))
    · exact tail_append_single _ _ (hne _ (by omega))

set_option maxRecDepth 4000 in
/-- Claim C4 (witness): the theorem at an empty history receiving one
chunk, and at a full 300-chunk history receiving one more. -/
theorem histories_capped_evict_oldest_witness :
    historiesInv
      (accumulateFrames resetHistories ⟨1, [1], [1], [1], [1], [1], [1], [1]⟩) ∧
    accumulateFrames
      (⟨List.replicate 300 [], List.replicate 300 [], List.replicate 300 [],
        List.replicate 300 [], List.replicate 300 [], List.replicate 300 [],
        List.replicate 300 []⟩ : Histories)
      ⟨1, [1], [1], [1], [1], [1], [1], [1]⟩ =
      ⟨(List.replicate 300 ([] : List ℚ)).tail ++ [[1]],
       (List.replicate 300 ([] : List ℚ)).tail ++ [[1]],
       (List.replicate 300 ([] : List ℚ)).tail ++ [[1]],
       (List.replicate 300 ([] : List ℚ)).tail ++ [[1]],
       (List.replicate 300 ([] : List ℚ)).tail ++ [[1]],
       (List.replicate 300 ([] : List ℚ)).tail ++ [[1]],
       (List.replicate 300 ([] : List ℚ)).tail ++ [[1]]⟩ :=
  ⟨histories_capped_evict_oldest.1 resetHistories _
     (by simp [historiesInv, resetHistories]),
   histories_capped_evict_oldest.2.2 _ _
     (by simp [historiesInv, maxChunks, List.length_replicate])
     (by simp [maxChunks, List.length_replicate]) (by decide)⟩

/-! ### Claim theorem for the estimate update -/

/-- Claim C5: when the progressive estimate's `updated` flag is false, the
published estimate is returned completely unchanged; equivalently, the
published estimate can only change on a cycle whose progressive estimate
has `updated = true`. -/
theorem updateEstimate_requires_updated :
    (∀ (p : ProgressiveEstimate) (e : StreamEstimate),
      p.updated = false → updateEstimate p e = e) ∧
    (∀ (p : ProgressiveEstimate) (e : StreamEstimate),
      updateEstimate p e ≠ e → p.updated = true) := by
  have h1 : ∀ (p : ProgressiveEstimate) (e : StreamEstimate),
      p.updated = false → updateEstimate p e = e := by
    intro p e h
    unfold updateEstimate
    rw [if_pos h]
  refine ⟨h1, ?_⟩
  intro p e hne
  cases hu : p.updated with
  | false => exact absurd (h1 p e hu) hne
  | true => rfl

/-- Claim C5 (witness): the theorem at a concrete non-updated progressive
estimate and the initial published estimate, and at a concrete updated one
that does change the published estimate. -/
theorem updateEstimate_requires_updated_witness :
    (updateEstimate
      { bpm := 0, bpmConfidence := 0, key := 0, keyMinor := false, keyConfidence := 0,
        chordRoot := 0, chordQuality := 0, chordConfidence := 0,
        barChordProgression := [], votedPattern := [], detectedPatternName := "",
        detectedPatternScore := 0, currentBar := -1, barDuration := 0,
        accumulatedSeconds := 0, updated := false } initialEstimate =
      initialEstimate) ∧
    ({ bpm := 0, bpmConfidence := 0, key := 0, keyMinor := false, keyConfidence := 0,
       chordRoot := 0, chordQuality := 0, chordConfidence := 0,
       barChordProgression := [], votedPattern := [], detectedPatternName := "x",
       detectedPatternScore := 0, currentBar := -1, barDuration := 0,
       accumulatedSeconds := 0, updated := true } : ProgressiveEstimate).updated =
      true :=
  ⟨updateEstimate_requires_updated.1 _ _ rfl,
   updateEstimate_requires_updated.2 _ initialEstimate
     (fun heq =>
       absurd (congrArg StreamEstimate.detectedPatternName heq) (by decide))⟩

/-! ### Claim theorems for the binding layer -/

/-- Claim C6: construction of a StreamAnalyzer fails whenever the resolved
configuration has sampleRate ≤ 0, hopLength ≤ 0, or hopLength ≥ nFft —
the result is an error, never a usable analyzer. -/
theorem streamAnalyzerNew_rejects_invalid :
    ∀ (s : ModuleState) (config : StreamConfig),
      ((resolveConfig config).sampleRate ≤ 0 ∨ (resolveConfig config).hopLength ≤ 0 ∨
        (resolveConfig config).nFft ≤ (resolveConfig config).hopLength) →
      ∃ msg, (streamAnalyzerNew s config).1 = .error msg := by
  intro s config h
  unfold streamAnalyzerNew
  cases s.module with
  | none => exact ⟨notInitializedMsg, rfl⟩
  | some m =>
    refine ⟨"Invalid StreamAnalyzer configuration", ?_⟩
    unfold nativeStreamAnalyzerNew
    rw [if_pos h]
    rfl

/-- Claim C6 (witness): the theorem at an initialized state with an
explicit hopLength of 0. -/
theorem streamAnalyzerNew_rejects_invalid_witness :
    ∃ msg,
      (streamAnalyzerNew ⟨some sampleModule, none⟩
        ⟨44100, none, some 0, none, none, none, none, none⟩).1 = .error msg :=
  streamAnalyzerNew_rejects_invalid ⟨some sampleModule, none⟩
    ⟨44100, none, some 0, none, none, none, none, none⟩ (by decide)

/-- Claim C7: once initialization has begun, every further `init()` call
leaves the state unchanged and starts no second load — returning
immediately when the module is loaded, and returning the existing
in-flight promise while loading is pending; `isInitialized` is false
exactly while the module handle is unassigned. -/
theorem init_idempotent_concurrent_safe :
    (∀ (s : ModuleState) (fresh : Nat),
      (s.module.isSome ∨ s.initPromise.isSome) →
        (init s fresh).1 = s ∧ ∀ p, (init s fresh).2 ≠ .started p) ∧
    (∀ (s : ModuleState) (fresh : Nat),
      s.module.isSome → (init s fresh).2 = .alreadyLoaded) ∧
    (∀ (s : ModuleState) (fresh : Nat) (p : Nat),
      s.module = none → s.initPromise = some p → (init s fresh).2 = .joined p) ∧
    (∀ s : ModuleState, isInitialized s = false ↔ s.module = none) := by
  refine ⟨?_, ?_, ?_, ?_⟩
  · intro s fresh h
    unfold init
    cases hm : s.module with
    | some m => exact ⟨rfl, fun p hp => by cases hp⟩
    | none =>
      cases hp : s.initPromise with
      | some q => exact ⟨rfl, fun p hq => by cases hq⟩
      | none =>
        rw [hm] at h
        rw [hp] at h
        rcases h with h | h <;> simp [Option.isSome] at h
  · intro s fresh h
    unfold init
    cases hm : s.module with
    | some m => rfl
    | none => rw [hm] at h; simp [Option.isSome] at h
  · intro s fresh p hm hp
    unfold init
    rw [hm, hp]
  · intro s
    unfold isInitialized
    cases s.module <;> simp

/-- Claim C7 (witness): the theorem at a pending state (in-flight promise
5), a loaded state, and the pristine state. -/
theorem init_idempotent_concurrent_safe_witness :
    ((init ⟨none, some 5⟩ 9).1 = ⟨none, some 5⟩ ∧
      ∀ p, (init ⟨none, some 5⟩ 9).2 ≠ .started p) ∧
    (init ⟨some sampleModule, none⟩ 9).2 = .alreadyLoaded ∧
    (init ⟨none, some 5⟩ 9).2 = .joined 5 ∧
    (isInitialized ⟨none, none⟩ = false ↔
      (⟨none, none⟩ : ModuleState).module = none) :=
  ⟨init_idempotent_concurrent_safe.1 ⟨none, some 5⟩ 9 (Or.inr rfl),
   init_idempotent_concurrent_safe.2.1 ⟨some sampleModule, none⟩ 9 rfl,
   init_idempotent_concurrent_safe.2.2.1 ⟨none, some 5⟩ 9 5 rfl rfl,
   init_idempotent_concurrent_safe.2.2.2 ⟨none, none⟩⟩

/-- Claim C8: with the module initialized, constructing from a config that
provides only sampleRate passes exactly the documented defaults
(nFft 2048, hopLength 512, nMels 128, computeMel/Chroma/Onset true,
emitEveryNFrames 1) to the native constructor; and the construction
depends on the configuration only through its resolved values — the
config is not re-read afterwards. -/
theorem streamAnalyzerNew_resolves_defaults :
    (∀ (s : ModuleState) (sr : ℚ), s.module.isSome →
      (streamAnalyzerNew s ⟨sr, none, none, none, none, none, none, none⟩).1 =
        (nativeStreamAnalyzerNew ⟨sr, 2048, 512, 128, true, true, true, 1⟩).map
          StreamAnalyzer.mk) ∧
    (∀ (s : ModuleState) (c₁ c₂ : StreamConfig),
      resolveConfig c₁ = resolveConfig c₂ →
      streamAnalyzerNew s c₁ = streamAnalyzerNew s c₂) := by
  constructor
  · intro s sr h
    unfold streamAnalyzerNew
    cases hm : s.module with
    | none => rw [hm] at h; simp [Option.isSome] at h
    | some m => rfl
  · intro s c₁ c₂ h
    unfold streamAnalyzerNew
    cases s.module with
    | none => rfl
    | some m => rw [h]

/-- Claim C8 (witness): the theorem at an initialized state with
sampleRate 44100, and at a config spelling out every default explicitly. -/
theorem streamAnalyzerNew_resolves_defaults_witness :
    (streamAnalyzerNew ⟨some sampleModule, none⟩
        ⟨44100, none, none, none, none, none, none, none⟩).1 =
      (nativeStreamAnalyzerNew ⟨44100, 2048, 512, 128, true, true, true, 1⟩).map
        StreamAnalyzer.mk ∧
    streamAnalyzerNew ⟨some sampleModule, none⟩
        ⟨44100, none, none, none, none, none, none, none⟩ =
      streamAnalyzerNew ⟨some sampleModule, none⟩
        ⟨44100, some 2048, some 512, some 128, some true, some true, some true,
         some 1⟩ :=
  ⟨streamAnalyzerNew_resolves_defaults.1 ⟨some sampleModule, none⟩ 44100 rfl,
   streamAnalyzerNew_resolves_defaults.2 ⟨some sampleModule, none⟩ _ _ rfl⟩

/-- Claim C9: every delegating export of the binding layer — version,
detectBpm, detectKey, detectOnsets, detectBeats, analyze,
analyzeWithProgress, hpss, harmonic, percussive, timeStretch, pitchShift,
normalize, trim, stft, stftDb, melSpectrogram, mfcc, chroma,
spectralCentroid, spectralBandwidth, spectralRolloff, spectralFlatness,
zeroCrossingRate, rmsEnergy, pitchYin, pitchPyin, hzToMel, melToHz,
hzToMidi, midiToHz, hzToNote, noteToHz, framesToTime, timeToFrames,
resample — as well as the StreamAnalyzer constructor, called while the
module is uninitialized, errors with exactly "Module not initialized.
Call init() first." and leaves the module-level state unchanged. -/
theorem uninitialized_throws :
    notInitializedMsg = "Module not initialized. Call init() first." ∧
    ∀ (s : ModuleState), s.module = none →
      ∀ (samples : List ℚ)
        (sr rate semitones targetDb thresholdDb kernelH kernelP rollPercent
          fmin fmax threshold hz mel midi t frames srcSr targetSr : ℚ)
        (nFft hopLength nMels nMfcc frameLength : Int) (note : String)
        (onProgress : ProgressCallback) (config : StreamConfig),
        version s = (.error notInitializedMsg, s) ∧
        detectBpm s samples sr = (.error notInitializedMsg, s) ∧
        detectKey s samples sr = (.error notInitializedMsg, s) ∧
        detectOnsets s samples sr = (.error notInitializedMsg, s) ∧
        detectBeats s samples sr = (.error notInitializedMsg, s) ∧
        analyze s samples sr = (.error notInitializedMsg, s) ∧
        analyzeWithProgress s samples sr onProgress = (.error notInitializedMsg, s) ∧
        hpss s samples sr kernelH kernelP = (.error notInitializedMsg, s) ∧
        harmonic s samples sr = (.error notInitializedMsg, s) ∧
        percussive s samples sr = (.error notInitializedMsg, s) ∧
        timeStretch s samples sr rate = (.error notInitializedMsg, s) ∧
        pitchShift s samples sr semitones = (.error notInitializedMsg, s) ∧
        normalize s samples sr targetDb = (.error notInitializedMsg, s) ∧
        trim s samples sr thresholdDb = (.error notInitializedMsg, s) ∧
        stft s samples sr nFft hopLength = (.error notInitializedMsg, s) ∧
        stftDb s samples sr nFft hopLength = (.error notInitializedMsg, s) ∧
        melSpectrogram s samples sr nFft hopLength nMels =
          (.error notInitializedMsg, s) ∧
        mfcc s samples sr nFft hopLength nMels nMfcc =
          (.error notInitializedMsg, s) ∧
        chroma s samples sr nFft hopLength = (.error notInitializedMsg, s) ∧
        spectralCentroid s samples sr nFft hopLength =
          (.error notInitializedMsg, s) ∧
        spectralBandwidth s samples sr nFft hopLength =
          (.error notInitializedMsg, s) ∧
        spectralRolloff s samples sr nFft hopLength rollPercent =
          (.error notInitializedMsg, s) ∧
        spectralFlatness s samples sr nFft hopLength =
          (.error notInitializedMsg, s) ∧
        zeroCrossingRate s samples sr frameLength hopLength =
          (.error notInitializedMsg, s) ∧
        rmsEnergy s samples sr frameLength hopLength =
          (.error notInitializedMsg, s) ∧
        pitchYin s samples sr frameLength hopLength fmin fmax threshold =
          (.error notInitializedMsg, s) ∧
        pitchPyin s samples sr frameLength hopLength fmin fmax threshold =
          (.error notInitializedMsg, s) ∧
        hzToMel s hz = (.error notInitializedMsg, s) ∧
        melToHz s mel = (.error notInitializedMsg, s) ∧
        hzToMidi s hz = (.error notInitializedMsg, s) ∧
        midiToHz s midi = (.error notInitializedMsg, s) ∧
        hzToNote s hz = (.error notInitializedMsg, s) ∧
        noteToHz s note = (.error notInitializedMsg, s) ∧
        framesToTime s frames sr hopLength = (.error notInitializedMsg, s) ∧
        timeToFrames s t sr hopLength = (.error notInitializedMsg, s) ∧
        resample s samples srcSr targetSr = (.error notInitializedMsg, s) ∧
        streamAnalyzerNew s config = (.error notInitializedMsg, s) := by
  refine ⟨rfl, ?_⟩
  intro s hm samples sr rate semitones targetDb thresholdDb kernelH kernelP
    rollPercent fmin fmax threshold hz mel midi t frames srcSr targetSr
    nFft hopLength nMels nMfcc frameLength note onProgress config
  unfold version detectBpm detectKey detectOnsets detectBeats analyze
    analyzeWithProgress hpss harmonic percussive timeStretch pitchShift
    normalize trim stft stftDb melSpectrogram mfcc chroma spectralCentroid
    spectralBandwidth spectralRolloff spectralFlatness zeroCrossingRate
    rmsEnergy pitchYin pitchPyin hzToMel melToHz hzToMidi midiToHz hzToNote
    noteToHz framesToTime timeToFrames resample streamAnalyzerNew
  rw [hm]
  exact ⟨rfl, rfl, rfl, rfl, rfl, rfl, rfl, rfl, rfl, rfl, rfl, rfl, rfl,
    rfl, rfl, rfl, rfl, rfl, rfl, rfl, rfl, rfl, rfl, rfl, rfl, rfl, rfl,
    rfl, rfl, rfl, rfl, rfl, rfl, rfl, rfl, rfl, rfl⟩

/-- Claim C9 (witness): the theorem at the pristine uninitialized state
with empty samples and the documented default parameter values. -/
theorem uninitialized_throws_witness :
    notInitializedMsg = "Module not initialized. Call init() first." ∧
    (version ⟨none, none⟩ = (.error notInitializedMsg, ⟨none, none⟩) ∧
     detectBpm ⟨none, none⟩ [] 44100 = (.error notInitializedMsg, ⟨none, none⟩) ∧
     detectKey ⟨none, none⟩ [] 44100 = (.error notInitializedMsg, ⟨none, none⟩) ∧
     detectOnsets ⟨none, none⟩ [] 44100 = (.error notInitializedMsg, ⟨none, none⟩) ∧
     detectBeats ⟨none, none⟩ [] 44100 = (.error notInitializedMsg, ⟨none, none⟩) ∧
     analyze ⟨none, none⟩ [] 44100 = (.error notInitializedMsg, ⟨none, none⟩) ∧
     analyzeWithProgress ⟨none, none⟩ [] 44100 (fun _ _ => ()) =
       (.error notInitializedMsg, ⟨none, none⟩) ∧
     hpss ⟨none, none⟩ [] 44100 31 31 = (.error notInitializedMsg, ⟨none, none⟩) ∧
     harmonic ⟨none, none⟩ [] 44100 = (.error notInitializedMsg, ⟨none, none⟩) ∧
     percussive ⟨none, none⟩ [] 44100 = (.error notInitializedMsg, ⟨none, none⟩) ∧
     timeStretch ⟨none, none⟩ [] 44100 2 = (.error notInitializedMsg, ⟨none, none⟩) ∧
     pitchShift ⟨none, none⟩ [] 44100 12 = (.error notInitializedMsg, ⟨none, none⟩) ∧
     normalize ⟨none, none⟩ [] 44100 0 = (.error notInitializedMsg, ⟨none, none⟩) ∧
     trim ⟨none, none⟩ [] 44100 (-60) = (.error notInitializedMsg, ⟨none, none⟩) ∧
     stft ⟨none, none⟩ [] 44100 2048 512 = (.error notInitializedMsg, ⟨none, none⟩) ∧
     stftDb ⟨none, none⟩ [] 44100 2048 512 =
       (.error notInitializedMsg, ⟨none, none⟩) ∧
     melSpectrogram ⟨none, none⟩ [] 44100 2048 512 128 =
       (.error notInitializedMsg, ⟨none, none⟩) ∧
     mfcc ⟨none, none⟩ [] 44100 2048 512 128 13 =
       (.error notInitializedMsg, ⟨none, none⟩) ∧
     chroma ⟨none, none⟩ [] 44100 2048 512 =
       (.error notInitializedMsg, ⟨none, none⟩) ∧
     spectralCentroid ⟨none, none⟩ [] 44100 2048 512 =
       (.error notInitializedMsg, ⟨none, none⟩) ∧
     spectralBandwidth ⟨none, none⟩ [] 44100 2048 512 =
       (.error notInitializedMsg, ⟨none, none⟩) ∧
     spectralRolloff ⟨none, none⟩ [] 44100 2048 512 (85/100) =
       (.error notInitializedMsg, ⟨none, none⟩) ∧
     spectralFlatness ⟨none, none⟩ [] 44100 2048 512 =
       (.error notInitializedMsg, ⟨none, none⟩) ∧
     zeroCrossingRate ⟨none, none⟩ [] 44100 2048 512 =
       (.error notInitializedMsg, ⟨none, none⟩) ∧
     rmsEnergy ⟨none, none⟩ [] 44100 2048 512 =
       (.error notInitializedMsg, ⟨none, none⟩) ∧
     pitchYin ⟨none, none⟩ [] 44100 2048 512 65 2093 (3/10) =
       (.error notInitializedMsg, ⟨none, none⟩) ∧
     pitchPyin ⟨none, none⟩ [] 44100 2048 512 65 2093 (3/10) =
       (.error notInitializedMsg, ⟨none, none⟩) ∧
     hzToMel ⟨none, none⟩ 440 = (.error notInitializedMsg, ⟨none, none⟩) ∧
     melToHz ⟨none, none⟩ 1 = (.error notInitializedMsg, ⟨none, none⟩) ∧
     hzToMidi ⟨none, none⟩ 440 = (.error notInitializedMsg, ⟨none, none⟩) ∧
     midiToHz ⟨none, none⟩ 69 = (.error notInitializedMsg, ⟨none, none⟩) ∧
     hzToNote ⟨none, none⟩ 440 = (.error notInitializedMsg, ⟨none, none⟩) ∧
     noteToHz ⟨none, none⟩ "A4" = (.error notInitializedMsg, ⟨none, none⟩) ∧
     framesToTime ⟨none, none⟩ 1 44100 512 =
       (.error notInitializedMsg, ⟨none, none⟩) ∧
     timeToFrames ⟨none, none⟩ 1 44100 512 =
       (.error notInitializedMsg, ⟨none, none⟩) ∧
     resample ⟨none, none⟩ [] 48000 44100 =
       (.error notInitializedMsg, ⟨none, none⟩) ∧
     streamAnalyzerNew ⟨none, none⟩
       ⟨44100, none, none, none, none, none, none, none⟩ =
       (.error notInitializedMsg, ⟨none, none⟩)) :=
  ⟨uninitialized_throws.1,
   uninitialized_throws.2 ⟨none, none⟩ rfl [] 44100 2 12 0 (-60) 31 31 (85/100)
     65 2093 (3/10) 440 1 69 1 1 48000 44100 2048 512 128 13 2048 "A4"
     (fun _ _ => ()) ⟨44100, none, none, none, none, none, none, none⟩⟩

end Sonare
